import Mathlib

/-!
Shallow embedding of the Buienradar sensor value-extraction logic
(`BrSensor._load_data` and its helper methods in
`homeassistant/components/buienradar/sensor.py`).

Modelling conventions:
* Python dict values that a sensor may store (`_attr_native_value`) are
  either numbers or strings; they are modelled by `Val` (rationals model
  the numeric values, so the ×3.6 and ÷1000 conversions are exact).
* A Python dict with string keys is modelled as a function
  `String → Option Val`; `dict.get(k)` returning `None` for an absent key
  is `none`.
* The `condition` sub-document is a fixed-shape record `Condition`; the
  code only tests it with Python truthiness (`if condition:`), so an
  absent or empty sub-document are both modelled as `none`.
* `datetime` values (`measured`) are modelled as integers; the code only
  compares them for equality and formats them.
* Python exceptions that can escape `_load_data` are modelled with
  `Except PyError`; the `except IndexError` handlers in the source are
  modelled by the `none` case of list lookup (no exception escapes there,
  a warning is logged instead, recorded in the `warned` flag).
* `self.state` and `self.entity_picture` are modelled as the stored
  native value and entity picture of the sensor state.
-/

namespace Buienradar

/-- A scalar value as stored in the upstream data dict: a number or a string. -/
inductive Val where
  | num (q : ℚ)
  | str (s : String)
deriving DecidableEq

/-- The `condition` sub-document (fields from `buienradar.constants`:
CONDITION, CONDCODE, DETAILED, EXACT, EXACTNL, IMAGE); an absent field is `none`. -/
structure Condition where
  condition : Option Val
  condcode : Option Val
  detailed : Option Val
  exact : Option Val
  exactnl : Option Val
  image : Option Val
deriving DecidableEq

/-- One per-day sub-document of the `forecast` sequence: scalar fields keyed by
name, plus an optional `condition` sub-document. -/
structure DayForecast where
  scalars : String → Option Val
  condition : Option Condition

/-- The measurement snapshot (the `data` dict handed to `_load_data`):
`measured` timestamp, top-level scalar fields, the `condition` sub-document,
the `precipitation_forecast` sub-document and the `forecast` sequence.
Every part may be absent. -/
structure Snapshot where
  measured : Option Int
  scalars : String → Option Val
  condition : Option Condition
  precipitation_forecast : Option (String → Option Val)
  forecast : Option (List DayForecast)

/-- The extra-state-attributes map built by `_update_other_sensors`:
ATTR_ATTRIBUTION, STATIONNAME_LABEL and (optionally) MEASURED_LABEL. -/
structure Attrs where
  attribution : Option Val
  stationname : Option Val
  measuredLabel : Option String
deriving DecidableEq

/-- The mutable per-sensor state: `self._measured`, `self._attr_native_value`,
`self._attr_entity_picture`, `self._attr_extra_state_attributes`,
`self._timeframe`. -/
structure SensorState where
  measured : Option Int
  value : Option Val
  picture : Option Val
  attrs : Option Attrs
  timeframe : Option Val
deriving DecidableEq

/-- Python exceptions that can escape `_load_data`. -/
inductive PyError where
  | typeError
  | attributeError
deriving DecidableEq

/-- The outcome of a non-raising `_load_data` call: the new sensor state, the
returned changed flag, and whether a warning was logged. -/
structure LoadOut where
  state : SensorState
  changed : Bool
  warned : Bool
deriving DecidableEq

/-- Python `s.endswith(p)`. -/
def str_ends_with (s p : String) : Bool :=
  s.data.drop (s.data.length - p.data.length) = p.data

/-- Python `s.startswith(p)`. -/
def str_starts_with (s p : String) : Bool :=
  s.data.take p.data.length = p.data

/-- Python slice `s[n:]`. -/
def str_drop (s : String) (n : Nat) : String := ⟨s.data.drop n⟩

/-- Python slice `s[:-n]` (for n ≥ 1). -/
def str_drop_right (s : String) (n : Nat) : String := ⟨s.data.take (s.data.length - n)⟩

/-- Python half-to-even rounding to an integer, as used by `round`. -/
def round_half_even (q : ℚ) : ℤ :=
  let f := ⌊q⌋
  if q - f < 1/2 then f
  else if q - f > 1/2 then f + 1
  else if f % 2 = 0 then f else f + 1

/-- Python `round(q, 1)`: round to 1 decimal place, ties to even. -/
def round1 (q : ℚ) : ℚ := (round_half_even (10 * q) : ℚ) / 10

/-- Models `dt_util.as_local(t).strftime("%c")`: an opaque locale-dependent
rendering of the timestamp; the claims depend only on its presence. -/
def strftime_c (t : Int) : String := toString t

def SYMBOL : String := "symbol"
def CONDITION : String := "condition"
def WINDSPEED : String := "windspeed"
def WINDGUST : String := "windgust"
def VISIBILITY : String := "visibility"
def PRECIPITATION_FORECAST : String := "precipitation_forecast"
def TIMEFRAME : String := "timeframe"
def ATTRIBUTION : String := "attribution"
def STATIONNAME : String := "stationname"

/-- The `sensor_type.endswith(("_1d", "_2d", "_3d", "_4d", "_5d"))` test. -/
def ends_with_day (sensor_type : String) : Bool :=
  str_ends_with sensor_type "_1d" || str_ends_with sensor_type "_2d" ||
  str_ends_with sensor_type "_3d" || str_ends_with sensor_type "_4d" ||
  str_ends_with sensor_type "_5d"

/-- `BrSensor._get_forecast_day`. -/
def get_forecast_day (sensor_type : String) : Nat :=
  if str_ends_with sensor_type "_1d" then 0
  else if str_ends_with sensor_type "_2d" then 1
  else if str_ends_with sensor_type "_3d" then 2
  else if str_ends_with sensor_type "_4d" then 3
  else if str_ends_with sensor_type "_5d" then 4
  else 0

/-- `BrSensor._get_condition_state`. Note the branch order of the source: a
key starting with `condition` is caught by the second branch, so the last
three branches are unreachable for such keys. -/
def get_condition_state (condition : Condition) (sensor_type : String) : Option Val :=
  if str_starts_with sensor_type SYMBOL then condition.exactnl
  else if str_starts_with sensor_type CONDITION then condition.condition
  else if str_starts_with sensor_type "conditioncode" then condition.condcode
  else if str_starts_with sensor_type "conditiondetailed" then condition.detailed
  else if str_starts_with sensor_type "conditionexact" then condition.exact
  else none

/-- `BrSensor._update_weather_condition`. An absent `forecast` key makes the
subscript of `None` raise `TypeError` (only `IndexError` is caught). -/
def update_weather_condition (data : Snapshot) (fcday : Nat) (sensor_type : String)
    (st : SensorState) : Except PyError LoadOut :=
  match data.forecast with
  | none => .error .typeError
  | some days =>
    match days[fcday]? with
    | none => .ok ⟨st, false, true⟩
    | some day =>
      match day.condition with
      | none => .ok ⟨st, false, false⟩
      | some condition =>
        let new_state := get_condition_state condition sensor_type
        let img := condition.image
        if new_state ≠ st.value ∨ img ≠ st.picture then
          .ok ⟨{ st with value := new_state, picture := img }, true, false⟩
        else .ok ⟨st, false, false⟩

/-- `BrSensor._update_wind_forecast`. The conversion multiplies a raw string
by a float in Python, raising `TypeError`; an absent raw value skips the
conversion because the just-assigned state is `None`. -/
def update_wind_forecast (data : Snapshot) (fcday : Nat) (sensor_type : String)
    (st : SensorState) : Except PyError LoadOut :=
  match data.forecast with
  | none => .error .typeError
  | some days =>
    match days[fcday]? with
    | none => .ok ⟨st, false, true⟩
    | some day =>
      match day.scalars (str_drop_right sensor_type 3) with
      | none => .ok ⟨{ st with value := none }, true, false⟩
      | some (.num q) =>
          .ok ⟨{ st with value := some (.num (round1 (q * (18/5)))) }, true, false⟩
      | some (.str _) => .error .typeError

/-- `BrSensor._update_general_forecast`. -/
def update_general_forecast (data : Snapshot) (fcday : Nat) (sensor_type : String)
    (st : SensorState) : Except PyError LoadOut :=
  match data.forecast with
  | none => .error .typeError
  | some days =>
    match days[fcday]? with
    | none => .ok ⟨st, false, true⟩
    | some day =>
      .ok ⟨{ st with value := day.scalars (str_drop_right sensor_type 3) }, true, false⟩

/-- `BrSensor._update_forecasting_sensors`. -/
def update_forecasting_sensors (data : Snapshot) (sensor_type : String)
    (st : SensorState) : Except PyError LoadOut :=
  let fcday := get_forecast_day sensor_type
  if str_starts_with sensor_type SYMBOL || str_starts_with sensor_type CONDITION then
    update_weather_condition data fcday sensor_type st
  else if str_starts_with sensor_type WINDSPEED then
    update_wind_forecast data fcday sensor_type st
  else
    update_general_forecast data fcday sensor_type st

/-- `BrSensor._update_condition_symbol`. -/
def update_condition_symbol (data : Snapshot) (sensor_type : String)
    (st : SensorState) : Except PyError LoadOut :=
  match data.condition with
  | none => .ok ⟨st, false, false⟩
  | some condition =>
    let new_state := get_condition_state condition sensor_type
    let img := condition.image
    if new_state ≠ st.value ∨ img ≠ st.picture then
      .ok ⟨{ st with value := new_state, picture := img }, true, false⟩
    else .ok ⟨st, false, false⟩

/-- `BrSensor._update_precipitation_forecast`. When the sub-document is
absent, `nested.get(...)` is an attribute access on `None` and raises
`AttributeError`. -/
def update_precipitation_forecast (data : Snapshot) (sensor_type : String)
    (st : SensorState) : Except PyError LoadOut :=
  match data.precipitation_forecast with
  | none => .error .attributeError
  | some nested =>
    .ok ⟨{ st with
            timeframe := nested TIMEFRAME,
            value := nested (str_drop sensor_type (PRECIPITATION_FORECAST.data.length + 1)) },
         true, false⟩

/-- `BrSensor._update_wind_speed`. -/
def update_wind_speed (data : Snapshot) (sensor_type : String)
    (st : SensorState) : Except PyError LoadOut :=
  match data.scalars sensor_type with
  | none => .ok ⟨{ st with value := none }, true, false⟩
  | some (.num q) =>
      .ok ⟨{ st with value := some (.num (round1 (q * (18/5)))) }, true, false⟩
  | some (.str _) => .error .typeError

/-- `BrSensor._update_visibility`. -/
def update_visibility (data : Snapshot) (st : SensorState) : Except PyError LoadOut :=
  match data.scalars VISIBILITY with
  | none => .ok ⟨{ st with value := none }, true, false⟩
  | some (.num q) =>
      .ok ⟨{ st with value := some (.num (round1 (q / 1000))) }, true, false⟩
  | some (.str _) => .error .typeError

/-- `BrSensor._update_other_sensors`. `self._measured` equals the snapshot's
`measured` at this point (the gate has already stored it). -/
def update_other_sensors (data : Snapshot) (sensor_type : String)
    (st : SensorState) : Except PyError LoadOut :=
  let st := { st with value := data.scalars sensor_type }
  let result : Attrs :=
    { attribution := data.scalars ATTRIBUTION,
      stationname := data.scalars STATIONNAME,
      measuredLabel :=
        match st.measured with
        | some t => some (strftime_c t)
        | none => none }
  .ok ⟨{ st with attrs := some result }, true, false⟩

/-- `BrSensor._load_data`: the freshness gate followed by the key dispatch. -/
def load_data (data : Snapshot) (sensor_type : String)
    (st : SensorState) : Except PyError LoadOut :=
  if st.measured = data.measured then .ok ⟨st, false, false⟩
  else
    let st := { st with measured := data.measured }
    if ends_with_day sensor_type then
      update_forecasting_sensors data sensor_type st
    else if sensor_type = SYMBOL ∨ sensor_type = CONDITION then
      update_condition_symbol data sensor_type st
    else if str_starts_with sensor_type PRECIPITATION_FORECAST then
      update_precipitation_forecast data sensor_type st
    else if sensor_type = WINDSPEED ∨ sensor_type = WINDGUST then
      update_wind_speed data sensor_type st
    else if sensor_type = VISIBILITY then
      update_visibility data st
    else
      update_other_sensors data sensor_type st

end Buienradar

namespace Buienradar

def d_stale : Snapshot := ⟨some 5, fun _ => none, none, none, none⟩
def s_stale : SensorState := ⟨some 5, none, none, none, none⟩

def d_emptyfc : Snapshot := ⟨some 1, fun _ => none, none, none, some []⟩
def s_empty : SensorState := ⟨none, none, none, none, none⟩

def d_shortfc : Snapshot := ⟨some 9, fun _ => none, none, none, some [⟨fun _ => none, none⟩]⟩

def d_wind : Snapshot :=
  ⟨some 3, fun k => if k = "windspeed" then some (.num 10) else none, none, none, none⟩
def s_wind : SensorState := ⟨some 2, none, none, none, none⟩

def d_vis : Snapshot :=
  ⟨some 3, fun k => if k = "visibility" then some (.num 15000) else none, none, none, none⟩

def d_precip : Snapshot :=
  ⟨some 4, fun _ => none, none,
   some (fun k => if k = "timeframe" then some (.num 60)
                  else if k = "total" then some (.num 2) else none), none⟩

def d_other : Snapshot :=
  ⟨some 7,
   fun k => if k = "temperature" then some (.num 21)
            else if k = "attribution" then some (.str "Data by buienradar.nl")
            else if k = "stationname" then some (.str "De Bilt") else none,
   none, none, none⟩

def cond_x : Condition :=
  ⟨some (.str "x"), some (.str "x"), some (.str "x"), some (.str "x"),
   some (.str "x"), some (.str "img")⟩
def d_condcex : Snapshot := ⟨some 1, fun _ => none, some cond_x, none, none⟩
def s_condcex : SensorState := ⟨some 0, some (.str "x"), some (.str "img"), none, none⟩

def cond_w : Condition :=
  ⟨some (.str "cloudy"), none, none, none, some (.str "zwaar bewolkt"), some (.str "i.png")⟩
def d_cond_w : Snapshot := ⟨some 2, fun _ => none, some cond_w, none, none⟩

/-- The raw value is a number or absent (never a string). -/
def num_or_none : Option Val → Bool
  | some (.str _) => false
  | _ => true

def d_noprecip : Snapshot := ⟨some 1, fun _ => none, none, none, none⟩

/-- A `load` call that did not raise. -/
def is_ok : Except PyError LoadOut → Bool
  | .ok _ => true
  | .error _ => false

def d_wellformed : Snapshot :=
  ⟨some 1, fun _ => none, none, some (fun _ => none), some []⟩

def d_windfc : Snapshot :=
  ⟨some 6, fun _ => none, none, none,
   some [⟨fun k => if k = "windspeed" then some (.num 10) else none, none⟩]⟩

/-- Every success of `update_weather_condition` preserves the stored
`measured` timestamp. -/
theorem update_weather_condition_measured {data : Snapshot} {fcday : Nat}
    {sensor_type : String} {st : SensorState} {out : LoadOut}
    (h : update_weather_condition data fcday sensor_type st = .ok out) :
    out.state.measured = st.measured := by
  unfold update_weather_condition at h
  repeat' split at h
  all_goals simp_all
  all_goals (try (split at h <;> simp_all))
  all_goals (try subst h)
  all_goals rfl

/-- Every success of `update_wind_forecast` preserves the stored `measured`
timestamp. -/
theorem update_wind_forecast_measured {data : Snapshot} {fcday : Nat}
    {sensor_type : String} {st : SensorState} {out : LoadOut}
    (h : update_wind_forecast data fcday sensor_type st = .ok out) :
    out.state.measured = st.measured := by
  unfold update_wind_forecast at h
  repeat' split at h
  all_goals simp_all
  all_goals (try (split at h <;> simp_all))
  all_goals (try subst h)
  all_goals rfl

/-- Every success of `update_general_forecast` preserves the stored
`measured` timestamp. -/
theorem update_general_forecast_measured {data : Snapshot} {fcday : Nat}
    {sensor_type : String} {st : SensorState} {out : LoadOut}
    (h : update_general_forecast data fcday sensor_type st = .ok out) :
    out.state.measured = st.measured := by
  unfold update_general_forecast at h
  repeat' split at h
  all_goals simp_all
  all_goals (try (split at h <;> simp_all))
  all_goals (try subst h)
  all_goals rfl

/-- Every success of `update_forecasting_sensors` preserves the stored
`measured` timestamp. -/
theorem update_forecasting_sensors_measured {data : Snapshot}
    {sensor_type : String} {st : SensorState} {out : LoadOut}
    (h : update_forecasting_sensors data sensor_type st = .ok out) :
    out.state.measured = st.measured := by
  unfold update_forecasting_sensors at h
  split at h
  · exact update_weather_condition_measured h
  · split at h
    · exact update_wind_forecast_measured h
    · exact update_general_forecast_measured h

/-- Every success of `update_condition_symbol` preserves the stored
`measured` timestamp. -/
theorem update_condition_symbol_measured {data : Snapshot}
    {sensor_type : String} {st : SensorState} {out : LoadOut}
    (h : update_condition_symbol data sensor_type st = .ok out) :
    out.state.measured = st.measured := by
  unfold update_condition_symbol at h
  repeat' split at h
  all_goals simp_all
  all_goals (try (split at h <;> simp_all))
  all_goals (try subst h)
  all_goals rfl

/-- Every success of `update_precipitation_forecast` preserves the stored
`measured` timestamp. -/
theorem update_precipitation_forecast_measured {data : Snapshot}
    {sensor_type : String} {st : SensorState} {out : LoadOut}
    (h : update_precipitation_forecast data sensor_type st = .ok out) :
    out.state.measured = st.measured := by
  unfold update_precipitation_forecast at h
  repeat' split at h
  all_goals simp_all
  all_goals (try (split at h <;> simp_all))
  all_goals (try subst h)
  all_goals rfl

/-- Every success of `update_wind_speed` preserves the stored `measured`
timestamp. -/
theorem update_wind_speed_measured {data : Snapshot}
    {sensor_type : String} {st : SensorState} {out : LoadOut}
    (h : update_wind_speed data sensor_type st = .ok out) :
    out.state.measured = st.measured := by
  unfold update_wind_speed at h
  repeat' split at h
  all_goals simp_all
  all_goals (try (split at h <;> simp_all))
  all_goals (try subst h)
  all_goals rfl

/-- Every success of `update_visibility` preserves the stored `measured`
timestamp. -/
theorem update_visibility_measured {data : Snapshot}
    {st : SensorState} {out : LoadOut}
    (h : update_visibility data st = .ok out) :
    out.state.measured = st.measured := by
  unfold update_visibility at h
  repeat' split at h
  all_goals simp_all
  all_goals (try (split at h <;> simp_all))
  all_goals (try subst h)
  all_goals rfl

/-- Every success of `update_other_sensors` preserves the stored `measured`
timestamp. -/
theorem update_other_sensors_measured {data : Snapshot}
    {sensor_type : String} {st : SensorState} {out : LoadOut}
    (h : update_other_sensors data sensor_type st = .ok out) :
    out.state.measured = st.measured := by
  unfold update_other_sensors at h
  simp_all
  subst h
  rfl

/-- After every non-raising `_load_data`, the stored `measured` equals the
snapshot's `measured` timestamp. -/
theorem load_data_measured {data : Snapshot} {sensor_type : String}
    {st : SensorState} {out : LoadOut}
    (h : load_data data sensor_type st = .ok out) :
    out.state.measured = data.measured := by
  unfold load_data at h
  by_cases hg : st.measured = data.measured
  · rw [if_pos hg] at h
    simp only [Except.ok.injEq] at h
    subst h
    exact hg
  · rw [if_neg hg] at h
    simp only at h
    split at h
    · rw [update_forecasting_sensors_measured h]
    · split at h
      · rw [update_condition_symbol_measured h]
      · split at h
        · rw [update_precipitation_forecast_measured h]
        · split at h
          · rw [update_wind_speed_measured h]
          · split at h
            · rw [update_visibility_measured h]
            · rw [update_other_sensors_measured h]

/-- If the day index is out of range of a present forecast list, `_load_data`
on a forecast-day sensor updates only `measured`, logs a warning and returns
false. -/
theorem load_data_day_out_of_range {data : Snapshot} {sensor_type : String}
    {st : SensorState} {fc : List DayForecast}
    (hday : ends_with_day sensor_type = true)
    (hg : ¬ st.measured = data.measured)
    (hfc : data.forecast = some fc)
    (hlen : fc.length ≤ get_forecast_day sensor_type) :
    load_data data sensor_type st =
      .ok ⟨{ st with measured := data.measured }, false, true⟩ := by
  unfold load_data
  rw [if_neg hg]
  simp only [update_forecasting_sensors, hday, if_true]
  have hnone : fc[get_forecast_day sensor_type]? = none := List.getElem?_eq_none hlen
  split
  · simp only [update_weather_condition, hfc, hnone]
  · split
    · simp only [update_wind_forecast, hfc, hnone]
    · simp only [update_general_forecast, hfc, hnone]

/-- C1: whenever the snapshot's `measured` equals the previously recorded
`last_measured`, `load` returns false with the whole sensor state unchanged;
consequently feeding the identical snapshot right after any successful
`load` yields false with the state unchanged. -/
theorem c1_stale_snapshot_is_noop (data : Snapshot) (sensor_type : String)
    (st : SensorState) :
    (st.measured = data.measured →
      load_data data sensor_type st = .ok ⟨st, false, false⟩) ∧
    (∀ out, load_data data sensor_type st = .ok out →
      load_data data sensor_type out.state = .ok ⟨out.state, false, false⟩) := by
  constructor
  · intro h
    unfold load_data
    rw [if_pos h]
  · intro out h
    unfold load_data
    rw [if_pos (load_data_measured h)]

/-- Witness for C1 at a concrete stale snapshot. -/
theorem c1_witness :
    load_data d_stale "temperature" s_stale = .ok ⟨s_stale, false, false⟩ :=
  (c1_stale_snapshot_is_noop d_stale "temperature" s_stale).1 rfl

/-- C4: for a forecast-day sensor whose requested day index is beyond the
length of the snapshot's forecast sequence, `load` returns false, logs a
warning, and leaves the stored value (indeed everything except
`last_measured`) at its prior value. -/
theorem c4_forecast_day_out_of_range (data : Snapshot) (sensor_type : String)
    (st : SensorState) (fc : List DayForecast)
    (hday : ends_with_day sensor_type = true)
    (hg : ¬ st.measured = data.measured)
    (hfc : data.forecast = some fc)
    (hlen : fc.length ≤ get_forecast_day sensor_type) :
    load_data data sensor_type st =
      .ok ⟨{ st with measured := data.measured }, false, true⟩ :=
  load_data_day_out_of_range hday hg hfc hlen

/-- Witness for C4: an empty forecast list and a `_3d` sensor. -/
theorem c4_witness :
    load_data d_emptyfc "temperature_3d" s_empty =
      .ok ⟨{ s_empty with measured := some 1 }, false, true⟩ :=
  c4_forecast_day_out_of_range d_emptyfc "temperature_3d" s_empty []
    rfl (by decide) rfl (by decide)

/-- C10: on the out-of-range forecast-day path, `last_measured` has already
been updated before the failed lookup, so delivering the same snapshot again
returns false through the freshness gate, without logging another warning. -/
theorem c10_out_of_range_updates_measured (data : Snapshot) (sensor_type : String)
    (st : SensorState) (fc : List DayForecast)
    (hday : ends_with_day sensor_type = true)
    (hg : ¬ st.measured = data.measured)
    (hfc : data.forecast = some fc)
    (hlen : fc.length ≤ get_forecast_day sensor_type) :
    load_data data sensor_type st =
      .ok ⟨{ st with measured := data.measured }, false, true⟩ ∧
    load_data data sensor_type { st with measured := data.measured } =
      .ok ⟨{ st with measured := data.measured }, false, false⟩ := by
  refine ⟨load_data_day_out_of_range hday hg hfc hlen, ?_⟩
  unfold load_data
  rw [if_pos rfl]

/-- Witness for C10: a one-day forecast and a `_5d` sensor. -/
theorem c10_witness :
    load_data d_shortfc "rain_5d" s_empty =
      .ok ⟨{ s_empty with measured := some 9 }, false, true⟩ ∧
    load_data d_shortfc "rain_5d" { s_empty with measured := some 9 } =
      .ok ⟨{ s_empty with measured := some 9 }, false, false⟩ :=
  c10_out_of_range_updates_measured d_shortfc "rain_5d" s_empty [⟨fun _ => none, none⟩]
    rfl (by decide) rfl (by decide)

/-- `round_half_even` is the identity on integers. -/
theorem round_half_even_intCast (n : ℤ) : round_half_even (n : ℚ) = n := by
  unfold round_half_even
  rw [Int.floor_intCast]
  norm_num

/-- Evaluating `round1` when ten times the argument is an integer. -/
theorem round1_of_mul_ten (q : ℚ) (n : ℤ) (h : 10 * q = (n : ℚ)) :
    round1 q = (n : ℚ) / 10 := by
  unfold round1
  rw [h, round_half_even_intCast]

/-- Unfolding `_load_data` past a passing freshness gate: the key dispatch
runs on the state with `measured` already updated. -/
theorem load_data_fresh_eq (data : Snapshot) (sensor_type : String)
    (st : SensorState) (hg : ¬ st.measured = data.measured) :
    load_data data sensor_type st =
      (if ends_with_day sensor_type then
        update_forecasting_sensors data sensor_type { st with measured := data.measured }
      else if sensor_type = SYMBOL ∨ sensor_type = CONDITION then
        update_condition_symbol data sensor_type { st with measured := data.measured }
      else if str_starts_with sensor_type PRECIPITATION_FORECAST then
        update_precipitation_forecast data sensor_type { st with measured := data.measured }
      else if sensor_type = WINDSPEED ∨ sensor_type = WINDGUST then
        update_wind_speed data sensor_type { st with measured := data.measured }
      else if sensor_type = VISIBILITY then
        update_visibility data { st with measured := data.measured }
      else
        update_other_sensors data sensor_type { st with measured := data.measured }) := by
  unfold load_data
  rw [if_neg hg]

/-- C5: for the current-day `windspeed` and `windgust` sensors past the
freshness gate, a numeric raw value q (m/s) stores `round(q * 3.6, 1)` km/h
(so 10.0 stores 36.0 and 0.0 stores 0.0), an absent raw value stores unset
without conversion, and `load` returns true in every case. -/
theorem c5_wind_speed_conversion (data : Snapshot) (sensor_type : String)
    (st : SensorState)
    (hk : sensor_type = WINDSPEED ∨ sensor_type = WINDGUST)
    (hg : ¬ st.measured = data.measured) :
    (∀ q : ℚ, data.scalars sensor_type = some (.num q) →
      load_data data sensor_type st =
        .ok ⟨{ st with
                 measured := data.measured,
                 value := some (.num (round1 (q * (18/5)))) }, true, false⟩) ∧
    (data.scalars sensor_type = none →
      load_data data sensor_type st =
        .ok ⟨{ st with measured := data.measured, value := none }, true, false⟩) ∧
    round1 (10 * (18/5)) = 36 ∧ round1 (0 * (18/5)) = 0 := by
  have hnav : load_data data sensor_type st =
      update_wind_speed data sensor_type { st with measured := data.measured } := by
    rw [load_data_fresh_eq data sensor_type st hg]
    rcases hk with rfl | rfl
    · rw [if_neg (by decide), if_neg (by decide), if_neg (by decide), if_pos (Or.inl rfl)]
    · rw [if_neg (by decide), if_neg (by decide), if_neg (by decide), if_pos (Or.inr rfl)]
  refine ⟨?_, ?_, ?_, ?_⟩
  · intro q hq
    rw [hnav]
    simp only [update_wind_speed, hq]
  · intro hq
    rw [hnav]
    simp only [update_wind_speed, hq]
  · rw [round1_of_mul_ten _ 360 (by norm_num)]
    norm_num
  · rw [round1_of_mul_ten _ 0 (by norm_num)]
    norm_num

/-- Witness for C5 at a concrete 10.0 m/s windspeed snapshot. -/
theorem c5_witness :
    load_data d_wind "windspeed" s_wind =
      .ok ⟨{ s_wind with
               measured := some 3,
               value := some (.num (round1 (10 * (18/5)))) }, true, false⟩ :=
  (c5_wind_speed_conversion d_wind "windspeed" s_wind (Or.inl rfl) (by decide)).1 10 rfl

/-- C6: for the `visibility` sensor past the freshness gate, a numeric raw
value q (meters) stores `round(q / 1000, 1)` km (so 15000 stores 15.0), an
absent raw value stores unset without conversion, and `load` returns true in
both cases. -/
theorem c6_visibility_conversion (data : Snapshot) (st : SensorState)
    (hg : ¬ st.measured = data.measured) :
    (∀ q : ℚ, data.scalars VISIBILITY = some (.num q) →
      load_data data VISIBILITY st =
        .ok ⟨{ st with
                 measured := data.measured,
                 value := some (.num (round1 (q / 1000))) }, true, false⟩) ∧
    (data.scalars VISIBILITY = none →
      load_data data VISIBILITY st =
        .ok ⟨{ st with measured := data.measured, value := none }, true, false⟩) ∧
    round1 (15000 / 1000) = 15 := by
  have hnav : load_data data VISIBILITY st =
      update_visibility data { st with measured := data.measured } := by
    rw [load_data_fresh_eq data VISIBILITY st hg]
    rw [if_neg (by decide), if_neg (by decide), if_neg (by decide), if_neg (by decide),
        if_pos rfl]
  refine ⟨?_, ?_, ?_⟩
  · intro q hq
    rw [hnav]
    simp only [update_visibility, hq]
  · intro hq
    rw [hnav]
    simp only [update_visibility, hq]
  · rw [round1_of_mul_ten _ 150 (by norm_num)]
    norm_num

/-- Witness for C6 at a concrete 15000 m visibility snapshot. -/
theorem c6_witness :
    load_data d_vis "visibility" s_wind =
      .ok ⟨{ s_wind with
               measured := some 3,
               value := some (.num (round1 (15000 / 1000))) }, true, false⟩ :=
  (c6_visibility_conversion d_vis s_wind (by decide)).1 15000 rfl

/-- C8: for a key with the `precipitation_forecast` prefix past the
freshness gate, with the sub-document present, `load` stores its timeframe
as auxiliary state, stores as value the sub-document field named by
stripping the prefix and its separator, and returns true unconditionally. -/
theorem c8_precipitation_forecast (data : Snapshot) (sensor_type : String)
    (st : SensorState) (nested : String → Option Val)
    (hk : str_starts_with sensor_type PRECIPITATION_FORECAST = true)
    (hday : ends_with_day sensor_type = false)
    (hg : ¬ st.measured = data.measured)
    (hp : data.precipitation_forecast = some nested) :
    load_data data sensor_type st =
      .ok ⟨{ st with
               measured := data.measured,
               timeframe := nested TIMEFRAME,
               value := nested (str_drop sensor_type (PRECIPITATION_FORECAST.data.length + 1)) },
           true, false⟩ := by
  have hns : ¬(sensor_type = SYMBOL ∨ sensor_type = CONDITION) := by
    rintro (rfl | rfl) <;> exact absurd hk (by decide)
  rw [load_data_fresh_eq data sensor_type st hg, if_neg (by simp [hday]), if_neg hns,
      if_pos hk]
  simp only [update_precipitation_forecast, hp]

/-- Witness for C8 at a concrete `precipitation_forecast_total` snapshot. -/
theorem c8_witness :
    load_data d_precip "precipitation_forecast_total" s_wind =
      .ok ⟨{ s_wind with
               measured := some 4,
               timeframe := some (.num 60),
               value := some (.num 2) }, true, false⟩ :=
  c8_precipitation_forecast d_precip "precipitation_forecast_total" s_wind
    (fun k => if k = "timeframe" then some (.num 60)
              else if k = "total" then some (.num 2) else none)
    rfl rfl (by decide) rfl

/-- C9: for every other scalar sensor past the freshness gate, `load` stores
the snapshot's value under the key verbatim, attaches the attribution and
station-name attributes plus a formatted timestamp exactly when `measured`
exists, and returns true. -/
theorem c9_other_sensors (data : Snapshot) (sensor_type : String)
    (st : SensorState)
    (hday : ends_with_day sensor_type = false)
    (hsc : ¬(sensor_type = SYMBOL ∨ sensor_type = CONDITION))
    (hpre : str_starts_with sensor_type PRECIPITATION_FORECAST = false)
    (hw : ¬(sensor_type = WINDSPEED ∨ sensor_type = WINDGUST))
    (hv : sensor_type ≠ VISIBILITY)
    (hg : ¬ st.measured = data.measured) :
    load_data data sensor_type st =
      .ok ⟨{ st with
               measured := data.measured,
               value := data.scalars sensor_type,
               attrs := some ⟨data.scalars ATTRIBUTION, data.scalars STATIONNAME,
                              data.measured.map strftime_c⟩ }, true, false⟩ := by
  rw [load_data_fresh_eq data sensor_type st hg, if_neg (by simp [hday]), if_neg hsc,
      if_neg (by simp [hpre]), if_neg hw, if_neg hv]
  cases data.measured <;> rfl

/-- Witness for C9 at a concrete temperature snapshot. -/
theorem c9_witness :
    load_data d_other "temperature" s_wind =
      .ok ⟨{ s_wind with
               measured := some 7,
               value := some (.num 21),
               attrs := some ⟨some (.str "Data by buienradar.nl"), some (.str "De Bilt"),
                              some (strftime_c 7)⟩ }, true, false⟩ :=
  c9_other_sensors d_other "temperature" s_wind rfl (by decide) rfl (by decide)
    (by decide) (by decide)

/-- Counterexample to C3 as stated: for the current-day `conditioncode`
sensor, the condition sub-document is present and neither the selected value
nor the image reference differs from the stored state, yet `load` returns
true: the key is dispatched to the generic scalar branch, not the condition
branch. -/
theorem c3_counterexample :
    get_condition_state cond_x "conditioncode" = s_condcex.value ∧
    cond_x.condcode = s_condcex.value ∧
    cond_x.image = s_condcex.picture ∧
    load_data d_condcex "conditioncode" s_condcex =
      .ok ⟨⟨some 1, none, some (.str "img"), some ⟨none, none, some (strftime_c 1)⟩, none⟩,
           true, false⟩ :=
  ⟨rfl, rfl, rfl, rfl⟩

/-- C3 (amended): for the current-day `symbol` and `condition` sensors (the
only current-day keys dispatched to the condition branch), past the
freshness gate and with the condition sub-document present, `load` returns
true if and only if the selected value or the image reference differs from
the stored ones, updating `last_measured` either way; other current-day
condition-family keys take the generic scalar path and return true
unconditionally. -/
theorem c3_condition_symbol_change_detection (data : Snapshot)
    (sensor_type : String) (st : SensorState) (condition : Condition)
    (hk : sensor_type = SYMBOL ∨ sensor_type = CONDITION)
    (hg : ¬ st.measured = data.measured)
    (hc : data.condition = some condition) :
    load_data data sensor_type st =
      .ok (if get_condition_state condition sensor_type ≠ st.value ∨
              condition.image ≠ st.picture then
             ⟨{ st with
                  measured := data.measured,
                  value := get_condition_state condition sensor_type,
                  picture := condition.image }, true, false⟩
           else ⟨{ st with measured := data.measured }, false, false⟩) := by
  have hnav : load_data data sensor_type st =
      update_condition_symbol data sensor_type { st with measured := data.measured } := by
    rw [load_data_fresh_eq data sensor_type st hg]
    rcases hk with rfl | rfl
    · rw [if_neg (by decide), if_pos (Or.inl rfl)]
    · rw [if_neg (by decide), if_pos (Or.inr rfl)]
  rw [hnav]
  simp only [update_condition_symbol, hc]
  split <;> rfl

/-- Witness for the amended C3 at a concrete changed `condition` snapshot. -/
theorem c3_witness :
    load_data d_cond_w "condition" s_empty =
      .ok ⟨⟨some 2, some (.str "cloudy"), some (.str "i.png"), none, none⟩, true, false⟩ := by
  have h := c3_condition_symbol_change_detection d_cond_w "condition" s_empty cond_w
    (Or.inr rfl) (by decide) rfl
  rw [if_pos (by decide)] at h
  exact h

/-- Counterexample to C2 as stated: with the `precipitation_forecast`
sub-document absent from the snapshot, `load` on a
`precipitation_forecast_total` sensor raises `AttributeError` (the code
calls `.get` on `None`) instead of storing an unset value. -/
theorem c2_counterexample :
    load_data d_noprecip "precipitation_forecast_total" s_empty =
      .error .attributeError := rfl

/-- C2 (amended): `load` never raises provided the snapshot carries its
`forecast` sequence and `precipitation_forecast` sub-document, and the raw
values subject to unit conversion are numeric when present; absent scalar
fields are stored as unset values, never surfaced as errors. -/
theorem c2_no_exception (data : Snapshot) (sensor_type : String)
    (st : SensorState) (fc : List DayForecast) (nested : String → Option Val)
    (hfc : data.forecast = some fc)
    (hp : data.precipitation_forecast = some nested)
    (h3 : num_or_none (data.scalars WINDSPEED) = true)
    (h4 : num_or_none (data.scalars WINDGUST) = true)
    (h5 : num_or_none (data.scalars VISIBILITY) = true)
    (h6 : ∀ day ∈ fc, num_or_none (day.scalars (str_drop_right sensor_type 3)) = true) :
    is_ok (load_data data sensor_type st) = true := by
  by_cases hg : st.measured = data.measured
  · unfold load_data
    rw [if_pos hg]
    rfl
  · rw [load_data_fresh_eq data sensor_type st hg]
    split
    · unfold update_forecasting_sensors
      split
      · unfold update_weather_condition
        split
        next heq => rw [hfc] at heq; cases heq
        next days heq =>
          dsimp only
          split
          · rfl
          next day heq2 =>
            split
            · rfl
            next condition heq3 => split <;> rfl
      · split
        · unfold update_wind_forecast
          split
          next heq => rw [hfc] at heq; cases heq
          next days heq =>
            dsimp only
            split
            · rfl
            next day heq2 =>
              split
              · rfl
              next q heq3 => rfl
              next s heq3 =>
                exfalso
                rw [hfc, Option.some.injEq] at heq
                subst heq
                have hmem : day ∈ fc := by
                  obtain ⟨hlt, rfl⟩ := List.getElem?_eq_some.mp heq2
                  exact List.getElem_mem hlt
                have hnum := h6 day hmem
                rw [heq3] at hnum
                exact absurd hnum (by simp [num_or_none])
        · unfold update_general_forecast
          split
          next heq => rw [hfc] at heq; cases heq
          next days heq =>
            dsimp only
            split
            · rfl
            · rfl
    · split
      · unfold update_condition_symbol
        split
        · rfl
        next condition heq =>
          dsimp only
          split <;> rfl
      · split
        · unfold update_precipitation_forecast
          split
          next heq => rw [hp] at heq; cases heq
          next heq => rfl
        · split
          next hws =>
            unfold update_wind_speed
            rcases hws with rfl | rfl
            · split
              · rfl
              next q heq => rfl
              next s heq => rw [heq] at h3; exact absurd h3 (by simp [num_or_none])
            · split
              · rfl
              next q heq => rfl
              next s heq => rw [heq] at h4; exact absurd h4 (by simp [num_or_none])
          next =>
            split
            · unfold update_visibility
              split
              · rfl
              next q heq => rfl
              next s heq => rw [heq] at h5; exact absurd h5 (by simp [num_or_none])
            · unfold update_other_sensors
              rfl

/-- Witness for the amended C2 at a concrete well-formed snapshot. -/
theorem c2_witness :
    is_ok (load_data d_wellformed "temperature" s_empty) = true :=
  c2_no_exception d_wellformed "temperature" s_empty [] (fun _ => none)
    rfl rfl rfl rfl rfl (by simp)

/-- Navigation of `_load_data` to the forecast-day wind branch. -/
theorem load_data_wind_forecast_eq (data : Snapshot) (sensor_type : String)
    (st : SensorState)
    (h1 : ends_with_day sensor_type = true)
    (h2 : str_starts_with sensor_type SYMBOL = false)
    (h3 : str_starts_with sensor_type CONDITION = false)
    (h4 : str_starts_with sensor_type WINDSPEED = true)
    (hg : ¬ st.measured = data.measured) :
    load_data data sensor_type st =
      update_wind_forecast data (get_forecast_day sensor_type) sensor_type
        { st with measured := data.measured } := by
  rw [load_data_fresh_eq data sensor_type st hg, if_pos h1]
  simp [update_forecasting_sensors, h2, h3, h4]

/-- C7: for the five forecast-day windspeed sensors, the day suffix maps to
the zero-based index 0-4, the raw value is read from that forecast day under
the key with the suffix stripped, a present numeric value is stored as
`round(q * 3.6, 1)` (conversion skipped and unset stored when absent), and
`load` returns true whenever the freshness gate passed and the index was in
range. -/
theorem c7_wind_forecast (data : Snapshot) (sensor_type : String)
    (st : SensorState) (fc : List DayForecast) (day : DayForecast)
    (hk : sensor_type ∈ ["windspeed_1d", "windspeed_2d", "windspeed_3d",
                         "windspeed_4d", "windspeed_5d"])
    (hg : ¬ st.measured = data.measured)
    (hfc : data.forecast = some fc)
    (hd : fc[get_forecast_day sensor_type]? = some day) :
    (get_forecast_day "windspeed_1d" = 0 ∧ get_forecast_day "windspeed_2d" = 1 ∧
     get_forecast_day "windspeed_3d" = 2 ∧ get_forecast_day "windspeed_4d" = 3 ∧
     get_forecast_day "windspeed_5d" = 4) ∧
    str_drop_right sensor_type 3 = "windspeed" ∧
    (∀ q : ℚ, day.scalars "windspeed" = some (.num q) →
      load_data data sensor_type st =
        .ok ⟨{ st with
                 measured := data.measured,
                 value := some (.num (round1 (q * (18/5)))) }, true, false⟩) ∧
    (day.scalars "windspeed" = none →
      load_data data sensor_type st =
        .ok ⟨{ st with measured := data.measured, value := none }, true, false⟩) := by
  have hbase : str_drop_right sensor_type 3 = "windspeed" := by
    fin_cases hk <;> rfl
  have h1 : ends_with_day sensor_type = true := by
    fin_cases hk <;> rfl
  have h2 : str_starts_with sensor_type SYMBOL = false := by
    fin_cases hk <;> rfl
  have h3 : str_starts_with sensor_type CONDITION = false := by
    fin_cases hk <;> rfl
  have h4 : str_starts_with sensor_type WINDSPEED = true := by
    fin_cases hk <;> rfl
  refine ⟨⟨rfl, rfl, rfl, rfl, rfl⟩, hbase, ?_, ?_⟩
  · intro q hq
    rw [load_data_wind_forecast_eq data sensor_type st h1 h2 h3 h4 hg]
    simp only [update_wind_forecast, hfc, hd, hbase, hq]
  · intro hq
    rw [load_data_wind_forecast_eq data sensor_type st h1 h2 h3 h4 hg]
    simp only [update_wind_forecast, hfc, hd, hbase, hq]

/-- Witness for C7 at a concrete one-day forecast with windspeed 10 m/s. -/
theorem c7_witness :
    load_data d_windfc "windspeed_1d" s_empty =
      .ok ⟨{ s_empty with
               measured := some 6,
               value := some (.num (round1 (10 * (18/5)))) }, true, false⟩ :=
  (c7_wind_forecast d_windfc "windspeed_1d" s_empty
    [⟨fun k => if k = "windspeed" then some (.num 10) else none, none⟩]
    ⟨fun k => if k = "windspeed" then some (.num 10) else none, none⟩
    (by simp) (by decide) rfl rfl).2.2.1 10 rfl

end Buienradar

